import Mathlib

/-!
Verification of the Response Orchestration Engine of the text-speech-rag
repository: the rule-based emotion classifier (`emotion_classifier.py`),
the session-scoped conversation store (`session_manager.py`), and the
provider cascade (`rag_pipeline.py` / `gemini_ai.py`), shallowly embedded
in Lean 4.

Conventions of the embedding:
- Python strings are Lean `String`s; scanning operations work on `String.data`.
- Wall-clock instants (`datetime.now()`) are natural numbers of seconds,
  passed explicitly to each operation that reads the clock.
- The session dictionary is a map `String → Option Session`.
- External providers (Gemini `generate_content`, the LangChain retrieval
  chain, the OpenAI `llm.invoke`) are oracles of type `String → Except String String`
  packaged in a `Providers` record; `.error` models a raised exception.
- A Python function that can raise `KeyError` is modelled with `Option`
  (`none` = the uncaught exception escapes).
-/

/-! ## Python string primitives -/

/-- The characters stripped by Python `str.strip()` and matched by `\s`
(ASCII fragment): space, tab, newline, carriage return, vertical tab, form feed. -/
def isPyWs (c : Char) : Bool :=
  c = ' ' || c = '\t' || c = '\n' || c = '\r' || c = '\x0b' || c = '\x0c'

/-- Python `str.lower()` (ASCII fragment), as a map over the character list. -/
def lowerStr (s : String) : String := String.mk (s.data.map Char.toLower)

/-- Characters of `s.strip()`. -/
def stripList (s : List Char) : List Char :=
  ((s.dropWhile isPyWs).reverse.dropWhile isPyWs).reverse

/-- `len(s.strip())` in Python. -/
def stripLen (s : String) : Nat := (stripList s.data).length

/-! ## A small regex core

The classifier uses `re.findall` over patterns built from literal words,
`\s+`, alternation and concatenation only.  `Regex` is exactly that pattern
language; `matchLens` lists the candidate match lengths at the head of a
string in Python's backtracking priority order (leftmost alternative first,
greedy `\s+`). -/

inductive Regex where
  | fail : Regex
  | lit : List Char → Regex
  | ws : Regex
  | alt : Regex → Regex → Regex
  | seq : Regex → Regex → Regex
deriving Repr

/-- Number of leading Python-whitespace characters. -/
def leadingWs : List Char → Nat
  | [] => 0
  | c :: cs => if isPyWs c then leadingWs cs + 1 else 0

/-- All candidate lengths of a match of `r` at the head of `s`, in Python's
backtracking priority order: a literal matches itself, `\s+` prefers the
longest run, alternation prefers the left branch. -/
def Regex.matchLens : Regex → List Char → List Nat
  | .fail, _ => []
  | .lit l, s => if l.isPrefixOf s then [l.length] else []
  | .ws, s => let k := leadingWs s; (List.range k).map (fun i => k - i)
  | .alt r₁ r₂, s => r₁.matchLens s ++ r₂.matchLens s
  | .seq r₁ r₂, s => (r₁.matchLens s).flatMap (fun n => (r₂.matchLens (s.drop n)).map (n + ·))

/-- Length of the match Python's engine takes at the head of `s`, if any. -/
def firstMatchLen (r : Regex) (s : List Char) : Option Nat := (r.matchLens s).head?

/-- Scan of `re.findall`: walk left to right, take the first match at each
position, resume after its end; `fuel` bounds the walk by the string length. -/
def scanCountAux (r : Regex) : Nat → List Char → Nat
  | 0, _ => 0
  | _ + 1, [] => 0
  | fuel + 1, c :: rest =>
    match firstMatchLen r (c :: rest) with
    | none => scanCountAux r fuel rest
    | some n => 1 + scanCountAux r fuel (rest.drop (n - 1))

/-- `len(re.findall(r, s))` for the pattern fragment above. -/
def reFindallCount (r : Regex) (s : String) : Nat := scanCountAux r s.data.length s.data

/-- Python `s.count(sub)`: non-overlapping left-to-right occurrences. -/
def strCount (s sub : String) : Nat := scanCountAux (.lit sub.data) s.data.length s.data

/-- Python `sub in s` (substring containment). -/
def hasSubstr (s sub : String) : Bool := decide (0 < strCount s sub)

/-- Literal-word regex. -/
def rlit (s : String) : Regex := .lit s.data

/-- Right-nested alternation `(a|b|...)`, left branch preferred. -/
def ralt (rs : List Regex) : Regex := rs.foldr .alt .fail

/-- Concatenation of a nonempty pattern list. -/
def rcat : List Regex → Regex
  | [] => .lit []
  | [r] => r
  | r :: rs => .seq r (rcat rs)

/-! ## Emotion classifier (`emotion_classifier.py`) -/

inductive Emotion where
  | happy | thinking | explaining | encouraging | questioning
deriving DecidableEq, Repr

/-- Insertion order of `self.emotion_patterns` (Python dicts iterate in
insertion order). -/
def emotionOrder : List Emotion :=
  [.happy, .thinking, .explaining, .encouraging, .questioning]

/-- Position of a label in the declaration order. -/
def orderIdx : Emotion → Nat
  | .happy => 0
  | .thinking => 1
  | .explaining => 2
  | .encouraging => 3
  | .questioning => 4

/-- The string name each label is stored under. -/
def emotionName : Emotion → String
  | .happy => "happy"
  | .thinking => "thinking"
  | .explaining => "explaining"
  | .encouraging => "encouraging"
  | .questioning => "questioning"

/-- `emotion_patterns[e]["keywords"]` from `EmotionClassifier.__init__`. -/
def emotion_keywords : Emotion → List String
  | .happy => ["great", "excellent", "wonderful", "fantastic", "amazing", "perfect",
      "congratulations", "well done", "brilliant", "awesome", "good job"]
  | .thinking => ["let me", "consider", "think", "analyze", "examine", "look at",
      "hmm", "interesting", "complex", "challenging", "difficult"]
  | .explaining => ["because", "since", "therefore", "thus", "so", "explanation",
      "reason", "cause", "due to", "as a result", "consequently"]
  | .encouraging => ["keep", "try", "practice", "don\x27t worry", "you can", "believe",
      "confident", "progress", "improve", "learning"]
  | .questioning => ["what", "how", "why", "when", "where", "which", "can you",
      "do you", "have you", "would you", "could you"]

/-- `emotion_patterns[e]["patterns"]` from `EmotionClassifier.__init__`,
each regex transcribed into the `Regex` core. -/
def emotion_regexes : Emotion → List Regex
  | .happy =>
    [rcat [rlit "that\x27s", .ws, ralt [rlit "great", rlit "excellent", rlit "wonderful",
        rlit "fantastic", rlit "amazing", rlit "perfect"]],
     ralt [rcat [rlit "well", .ws, rlit "done"], rcat [rlit "good", .ws, rlit "job"],
        rcat [rlit "great", .ws, rlit "work"]],
     rcat [rlit "you", .ws, ralt [rcat [rlit "got", .ws, rlit "it"],
        rcat [rlit "did", .ws, rlit "it"], rlit "understand",
        rcat [rlit "figured", .ws, rlit "it", .ws, rlit "out"]]]]
  | .thinking =>
    [rcat [rlit "let", .ws, rlit "me", .ws, ralt [rlit "think", rlit "consider",
        rlit "analyze", rlit "examine"]],
     rcat [rlit "this", .ws, rlit "is", .ws, ralt [rlit "interesting", rlit "complex",
        rlit "challenging", rlit "difficult"]],
     ralt [rlit "hmm", rlit "well", rlit "now"],
     rcat [rlit "i", .ws, rlit "need", .ws, rlit "to", .ws, ralt [rlit "think",
        rlit "consider", rlit "analyze"]]]
  | .explaining =>
    [rcat [ralt [rlit "because", rlit "since", rlit "therefore", rlit "thus", rlit "so"], .ws],
     rcat [rlit "the", .ws, rlit "reason", .ws, ralt [rlit "is", rlit "for", rlit "that"]],
     rcat [rlit "this", .ws, rlit "happens", .ws, rlit "because"],
     ralt [rcat [rlit "step", .ws, rlit "by", .ws, rlit "step"], rlit "first", rlit "second",
        rlit "third", rlit "next", rlit "then", rlit "finally"],
     ralt [rcat [rlit "for", .ws, rlit "example"], rcat [rlit "such", .ws, rlit "as"],
        rlit "like"]]
  | .encouraging =>
    [ralt [rcat [rlit "keep", .ws, rlit "trying"], rcat [rlit "keep", .ws, rlit "practicing"],
        rcat [rlit "don\x27t", .ws, rlit "worry"]],
     rcat [rlit "you", .ws, rlit "can", .ws, ralt [rcat [rlit "do", .ws, rlit "it"],
        rlit "learn", rlit "improve", rcat [rlit "get", .ws, rlit "better"]]],
     ralt [rcat [rlit "practice", .ws, rlit "makes", .ws, rlit "perfect"],
        rcat [rlit "with", .ws, rlit "practice"]],
     rcat [rlit "you\x27re", .ws, ralt [rlit "learning", rlit "improving",
        rcat [rlit "making", .ws, rlit "progress"]]]]
  | .questioning =>
    [rcat [ralt [rlit "what", rlit "how", rlit "why", rlit "when", rlit "where",
        rlit "which"], .ws],
     rcat [ralt [rcat [rlit "can", .ws, rlit "you"], rcat [rlit "do", .ws, rlit "you"],
        rcat [rlit "have", .ws, rlit "you"], rcat [rlit "would", .ws, rlit "you"],
        rcat [rlit "could", .ws, rlit "you"]], .ws],
     rlit "?"]

structure EmotionScores where
  happy : Nat
  thinking : Nat
  explaining : Nat
  encouraging : Nat
  questioning : Nat
deriving DecidableEq, Repr

/-- Read a label's entry of the score dictionary. -/
def scoreOf (sc : EmotionScores) : Emotion → Nat
  | .happy => sc.happy
  | .thinking => sc.thinking
  | .explaining => sc.explaining
  | .encouraging => sc.encouraging
  | .questioning => sc.questioning

/-- The keyword-plus-pattern loop of `classify_emotion`: keyword substring
counts over the lowercased response plus twice the `re.findall` match counts. -/
def base_score (response : String) (e : Emotion) : Nat :=
  let response_lower := lowerStr response
  ((emotion_keywords e).map (fun k => strCount response_lower (lowerStr k))).sum
    + 2 * ((emotion_regexes e).map (fun p => reFindallCount p response_lower)).sum

/-- The score dictionary after the first loop of `classify_emotion`. -/
def base_scores (response : String) : EmotionScores :=
  ⟨base_score response .happy, base_score response .thinking,
   base_score response .explaining, base_score response .encouraging,
   base_score response .questioning⟩

def error_indicators : List String := ["wrong", "incorrect", "mistake", "error", "not right"]

def struggle_indicators : List String :=
  ["help", "don\x27t understand", "confused", "stuck", "difficult"]

def praise_words : List String := ["correct", "right", "good", "excellent", "perfect", "exactly"]

def encouraging_phrases : List String :=
  ["keep going", "you\x27re on the right track", "good effort", "try again", "practice more"]

def formula_chars : List Char := ['=', '+', '-', '*', '/', '\x7b', '\x7d', '[', ']']

/-- `EmotionClassifier._apply_contextual_rules`, rule by rule. -/
def apply_contextual_rules (sc : EmotionScores) (ai_response user_query : String) :
    EmotionScores :=
  let response_lower := lowerStr ai_response
  let query_lower := lowerStr user_query
  let s₁ := if stripLen ai_response < 20 then { sc with thinking := sc.thinking + 2 } else sc
  let s₂ := if formula_chars.any (fun c => ai_response.data.contains c) then
      { s₁ with explaining := s₁.explaining + 3 } else s₁
  let s₃ := if error_indicators.any (fun w => hasSubstr query_lower w) then
      { s₂ with encouraging := s₂.encouraging + 2 } else s₂
  let s₄ := if struggle_indicators.any (fun w => hasSubstr query_lower w) then
      { s₃ with encouraging := s₃.encouraging + 2 } else s₃
  let praise_count := (praise_words.filter (fun w => hasSubstr response_lower w)).length
  let s₅ := if praise_count ≥ 2 then { s₄ with happy := s₄.happy + 4 } else s₄
  let s₆ := { s₅ with questioning := s₅.questioning + strCount ai_response "?" * 2 }
  let s₇ := if stripLen ai_response > 200 then { s₆ with explaining := s₆.explaining + 2 } else s₆
  encouraging_phrases.foldl
    (fun s ph => if hasSubstr response_lower ph then
        { s with encouraging := s.encouraging + 3 } else s) s₇

/-- Python `max(emotion_scores.values())`. -/
def maxScoreVal (sc : EmotionScores) : Nat :=
  sc.happy.max (sc.thinking.max (sc.explaining.max (sc.encouraging.max sc.questioning)))

/-- The iteration of Python `max(emotion_scores, key=emotion_scores.get)`:
start from the first key and replace only on a strictly larger value, so the
earliest key among those sharing the maximum wins. -/
def pickMax (f : Emotion → Nat) : List Emotion → Emotion → Emotion
  | [], best => best
  | e :: rest, best => pickMax f rest (if f best < f e then e else best)

/-- `max(emotion_scores, key=emotion_scores.get)` over the insertion order. -/
def bestEmotion (f : Emotion → Nat) : Emotion :=
  pickMax f [.thinking, .explaining, .encouraging, .questioning] .happy

def default_emotion : String := "explaining"

/-- The full score dictionary `classify_emotion` compares. -/
def final_scores (ai_response user_query : String) : EmotionScores :=
  apply_contextual_rules (base_scores ai_response) ai_response user_query

/-- `EmotionClassifier.classify_emotion`.  The Python body is wrapped in a
`try/except` returning the default label; every operation in this model is
total, so no exception path exists. -/
def classify_emotion (ai_response : String) (user_query : String := "") : String :=
  let emotion_scores := final_scores ai_response user_query
  if maxScoreVal emotion_scores > 0 then emotionName (bestEmotion (scoreOf emotion_scores))
  else default_emotion

/-! ## Conversation store (`session_manager.py`) -/

/-- One entry of `conversation_history`: the dict
`\x7b"timestamp": ..., "user": ..., "ai": ...\x7d` appended by
`add_to_conversation`. -/
structure Exchange where
  timestamp : Nat
  user : String
  ai : String
deriving DecidableEq, Repr

/-- One value of `self.sessions` (the `context` bag carries no logic the
core reads, so it is not tracked). -/
structure Session where
  created_at : Nat
  last_activity : Nat
  history : List Exchange
deriving DecidableEq, Repr

/-- `self.sessions`: the id-keyed session dictionary. -/
abbrev Store := String → Option Session

def emptyStore : Store := fun _ => none

/-- `self.sessions[id] = v`. -/
def updateStore (st : Store) (id : String) (v : Session) : Store :=
  fun k => if k = id then some v else st k

/-- `SessionManager._cleanup_expired_sessions`: drop every session with
`now - last_activity > ttl` (`ttl` is `max_session_duration` in seconds). -/
def cleanup_expired_sessions (ttl : Nat) (st : Store) (now : Nat) : Store :=
  fun k =>
    match st k with
    | none => none
    | some s => if now - s.last_activity > ttl then none else some s

/-- `SessionManager.add_to_conversation`: materialize an absent session,
append the exchange, refresh `last_activity`, then truncate the history to
its last 20 entries when it exceeds 20. -/
def add_to_conversation (st : Store) (id : String) (user_message ai_response : String)
    (now : Nat) : Store :=
  let st₁ :=
    match st id with
    | none => updateStore st id ⟨now, now, []⟩
    | some _ => st
  match st₁ id with
  | none => st₁
  | some s =>
    let h₁ := s.history ++ [⟨now, user_message, ai_response⟩]
    let h₂ := if h₁.length > 20 then h₁.drop (h₁.length - 20) else h₁
    updateStore st₁ id { s with history := h₂, last_activity := now }

/-- `SessionManager.get_conversation_history`.  An unknown id returns the
empty list without touching the store.  A known id first runs the expiry
cleanup and then writes `last_activity` through `self.sessions[session_id]`;
if the cleanup deleted the very session being read, that subscript raises
`KeyError`, modelled as `none`. -/
def get_conversation_history (ttl : Nat) (st : Store) (id : String) (now : Nat) :
    Option (List Exchange × Store) :=
  match st id with
  | none => some ([], st)
  | some _ =>
    let st₁ := cleanup_expired_sessions ttl st now
    match st₁ id with
    | none => none
    | some s =>
      let st₂ := updateStore st₁ id { s with last_activity := now }
      some (s.history, st₂)

/-- History currently stored under `id` (empty when the id is unknown). -/
def historyOf (st : Store) (id : String) : List Exchange :=
  match st id with
  | none => []
  | some s => s.history

/-- Folding a batch of `(user, ai, now)` appends into the store. -/
def foldAppends (st : Store) (id : String) (inputs : List (String × String × Nat)) : Store :=
  inputs.foldl (fun acc x => add_to_conversation acc id x.1 x.2.1 x.2.2) st

/-- The exchange record one `(user, ai, now)` input appends. -/
def mkExchange (x : String × String × Nat) : Exchange := ⟨x.2.2, x.1, x.2.1⟩

/-- The last `n` entries of a list (Python `l[-n:]` for nonempty `l`). -/
def keepLast (n : Nat) (l : List α) : List α := l.drop (l.length - n)

theorem keepLast_of_length_le {n : Nat} {l : List α} (h : l.length ≤ n) :
    keepLast n l = l := by
  unfold keepLast
  rw [Nat.sub_eq_zero_of_le h, List.drop_zero]

theorem keepLast_cons {n : Nat} {l : List α} (a : α) (h : n ≤ l.length) :
    keepLast n (a :: l) = keepLast n l := by
  unfold keepLast
  have : (a :: l).length - n = (l.length - n) + 1 := by
    simp only [List.length_cons]; omega
  rw [this, List.drop_succ_cons]

theorem keepLast_length_le (n : Nat) (l : List α) : (keepLast n l).length ≤ n := by
  unfold keepLast
  rw [List.length_drop]
  omega

/-- Keeping the last `n`, appending, and keeping the last `n` again is the
same as appending first. -/
theorem keepLast_append_keepLast (n : Nat) (l l₂ : List α) :
    keepLast n (keepLast n l ++ l₂) = keepLast n (l ++ l₂) := by
  induction l with
  | nil => simp [keepLast]
  | cons a l ih =>
    by_cases h : (a :: l).length ≤ n
    · rw [keepLast_of_length_le h]
    · have hn : n ≤ l.length := by simp only [List.length_cons] at h; omega
      have hn₂ : n ≤ (l ++ l₂).length := by rw [List.length_append]; omega
      rw [keepLast_cons a hn, ih, List.cons_append, keepLast_cons a hn₂]

/-- `keepLast n` of anything followed by at least `n` fresh entries keeps
only fresh entries. -/
theorem keepLast_append_of_le (n : Nat) (l l₂ : List α) (h : n ≤ l₂.length) :
    keepLast n (l ++ l₂) = keepLast n l₂ := by
  unfold keepLast
  have : (l ++ l₂).length - n = l.length + (l₂.length - n) := by
    rw [List.length_append]; omega
  rw [this, List.drop_append]

theorem updateStore_same (st : Store) (id : String) (v : Session) :
    updateStore st id v id = some v := by
  unfold updateStore
  simp

/-- Net effect of one append on the stored history: the history becomes the
last 20 entries of the old history extended by the new exchange. -/
theorem historyOf_add (st : Store) (id user_message ai_response : String) (now : Nat) :
    historyOf (add_to_conversation st id user_message ai_response now) id
      = keepLast 20 (historyOf st id ++ [⟨now, user_message, ai_response⟩]) := by
  cases h : st id with
  | none =>
    simp only [add_to_conversation, historyOf, h, updateStore_same]
    simp [keepLast]
  | some s =>
    simp only [add_to_conversation, historyOf, h, updateStore_same]
    by_cases hlen : (s.history ++ [(⟨now, user_message, ai_response⟩ : Exchange)]).length > 20
    · simp only [if_pos hlen]
      rfl
    · simp only [if_neg hlen]
      rw [keepLast_of_length_le (by omega)]

/-- Folding a nonempty batch of appends: the final history is the last 20
entries of the original history extended by all appended exchanges. -/
theorem historyOf_foldAppends (id : String) (xs : List (String × String × Nat)) :
    ∀ (x : String × String × Nat) (st : Store),
      historyOf (foldAppends st id (x :: xs)) id
        = keepLast 20 (historyOf st id ++ (x :: xs).map mkExchange) := by
  induction xs with
  | nil =>
    intro x st
    unfold foldAppends
    simp only [List.foldl_cons, List.foldl_nil, List.map_cons, List.map_nil]
    exact historyOf_add st id x.1 x.2.1 x.2.2
  | cons y ys ih =>
    intro x st
    have step : foldAppends st id (x :: y :: ys)
        = foldAppends (add_to_conversation st id x.1 x.2.1 x.2.2) id (y :: ys) := rfl
    rw [step, ih y, historyOf_add]
    rw [keepLast_append_keepLast]
    simp [mkExchange]

/-- C3: a session's history never exceeds 20 exchanges after an append —
an append beyond the cap evicts the oldest entries and keeps the retained
tail in insertion order; in particular 25 appends to one session leave its
history at exactly 20 entries, the 20 most recent in original order. -/
theorem claim_C3_history_cap_fifo (st : Store) (id user_message ai_response : String)
    (now : Nat) (inputs : List (String × String × Nat)) :
    (historyOf (add_to_conversation st id user_message ai_response now) id).length ≤ 20 ∧
    (inputs.length = 25 →
      historyOf (foldAppends st id inputs) id = (inputs.map mkExchange).drop 5 ∧
      (historyOf (foldAppends st id inputs) id).length = 20) := by
  constructor
  · rw [historyOf_add]
    exact keepLast_length_le 20 _
  · intro h25
    cases inputs with
    | nil => simp at h25
    | cons x xs =>
      have hlen : ((x :: xs).map mkExchange).length = 25 := by
        rw [List.length_map]; exact h25
      rw [historyOf_foldAppends id xs x st,
          keepLast_append_of_le 20 _ _ (by rw [hlen]; omega)]
      unfold keepLast
      rw [hlen]
      constructor
      · norm_num
      · rw [List.length_drop, hlen]

/-- Concrete batch of 25 appends used to witness C3. -/
def c3Inputs : List (String × String × Nat) :=
  (List.range 25).map (fun i => ("u" ++ toString i, "a" ++ toString i, i))

/-- C3 witness: 25 concrete appends to a fresh session leave exactly the 20
most recent exchanges, in order. -/
theorem claim_C3_history_cap_fifo_witness :
    (historyOf (add_to_conversation emptyStore "s" "hi" "yo" 7) "s").length ≤ 20 ∧
    (historyOf (foldAppends emptyStore "s" c3Inputs) "s" = (c3Inputs.map mkExchange).drop 5 ∧
      (historyOf (foldAppends emptyStore "s" c3Inputs) "s").length = 20) :=
  ⟨(claim_C3_history_cap_fifo emptyStore "s" "hi" "yo" 7 c3Inputs).1,
   (claim_C3_history_cap_fifo emptyStore "s" "hi" "yo" 7 c3Inputs).2 (by decide)⟩

/-- C4: reads never materialize a session, writes always do — on an unknown
id `get_conversation_history` returns the empty sequence leaving the store
untouched, while `add_to_conversation` creates a session under exactly that
id holding the one recorded exchange. -/
theorem claim_C4_read_write_asymmetry (ttl now tstamp : Nat) (st : Store)
    (id user_message ai_response : String) (h : st id = none) :
    get_conversation_history ttl st id now = some ([], st) ∧
    add_to_conversation st id user_message ai_response tstamp id
      = some ⟨tstamp, tstamp, [⟨tstamp, user_message, ai_response⟩]⟩ := by
  constructor
  · unfold get_conversation_history
    rw [h]
  · simp only [add_to_conversation, h, updateStore_same]
    simp [updateStore_same]

/-- C4 witness at a concrete unknown id. -/
theorem claim_C4_read_write_asymmetry_witness :
    get_conversation_history 86400 emptyStore "sid" 5 = some ([], emptyStore) ∧
    add_to_conversation emptyStore "sid" "hi" "yo" 3 "sid"
      = some ⟨3, 3, [⟨3, "hi", "yo"⟩]⟩ :=
  claim_C4_read_write_asymmetry 86400 5 3 emptyStore "sid" "hi" "yo" rfl

/-- Store holding one session, idle since time 0, used for C5. -/
def c5Store : Store := updateStore emptyStore "s" ⟨0, 0, []⟩

/-- C5: the claim that `get_conversation_history` never hard-fails is wrong
at an expired-but-present session: the membership check passes, then the
cleanup deletes the session, and the subsequent
`self.sessions[session_id]["last_activity"] = ...` raises `KeyError`
(modelled by `none`).  TTL is 24h = 86400 s; the session last active at time
0 is queried at time 86401. -/
theorem claim_C5_expired_get_keyerror :
    c5Store "s" = some ⟨0, 0, []⟩ ∧
    get_conversation_history 86400 c5Store "s" 86401 = none := by
  exact ⟨rfl, rfl⟩

/-! ## Provider cascade (`gemini_ai.py` and `rag_pipeline.py`)

The external capabilities are oracles collected in `Providers`; an oracle
returning `.error e` models the call raising an exception with message `e`.
`rag_chat` returns the answer together with how many times each provider
tier was invoked during the call. -/

structure Providers where
  gemini_configured : Bool
  gemini_generate : String → Except String String
  vectorstore_ready : Bool
  qa_chain : String → Except String String
  llm_invoke : List (String × String) → Except String String

def not_configured_msg : String :=
  "Gemini AI is not properly configured. Please check your API key."

def having_trouble_msg : String :=
  "I\x27m having trouble generating a response right now. Could you please rephrase your question?"

def tech_difficulties_head : String :=
  "I\x27m experiencing some technical difficulties. Error: "

/-- The one phrase `RAGPipeline` treats as a degraded-provider signal. -/
def degraded_sentinel : String := "experiencing some technical difficulties"

/-- `GeminiAI._build_context`: the last 3 exchanges rendered as context. -/
def gemini_build_context (conversation_history : List Exchange) : String :=
  if conversation_history.isEmpty then ""
  else String.intercalate "\n" ("Previous conversation context:" ::
    (keepLast 3 conversation_history).flatMap
      (fun m => ["Student: " ++ m.user, "AI Tutor: " ++ m.ai]))

def gemini_prompt_head : String :=
  "You are an expert AI tutor specializing in artificial intelligence, machine learning, programming, and mathematics. Your role is to:\n\n1. Provide clear, educational explanations\n2. Use examples and analogies when helpful\n3. Encourage learning and curiosity\n4. Break down complex topics into understandable parts\n5. Suggest follow-up questions or topics to explore\n\nFORMATTING INSTRUCTIONS:\n- Do NOT use asterisks (*) for emphasis or bullet points\n- Use simple text formatting with capital letters for emphasis\n- Use numbered lists (1., 2., 3.) or dashes (-) for bullet points\n- Keep responses conversational and easy to read\n- Avoid markdown formatting symbols like *, **, _\n\n"

/-- The f-string prompt `GeminiAI.chat` sends to `generate_content`. -/
def gemini_full_prompt (message context : String) : String :=
  gemini_prompt_head ++ context ++ "\n\nStudent\x27s current question: " ++ message
    ++ "\n\nPlease provide a comprehensive, educational response that helps the student learn. Remember to avoid using asterisks in your formatting:"

/-- `GeminiAI.chat`: total — a missing key, an empty generation and a raised
exception each map to a fixed message instead of propagating. -/
def gemini_chat (p : Providers) (message : String) (conversation_history : List Exchange) :
    String :=
  if !p.gemini_configured then not_configured_msg
  else
    match p.gemini_generate
        (gemini_full_prompt message (gemini_build_context conversation_history)) with
    | .error e => tech_difficulties_head ++ e
    | .ok t => if t = "" then having_trouble_msg else t

/-- The guard `if gemini_response and "experiencing some technical
difficulties" not in gemini_response.lower()` of `RAGPipeline`. -/
def usable (r : String) : Bool :=
  if r = "" then false else !(hasSubstr (lowerStr r) degraded_sentinel)

/-- Invocation counters for one cascade call: the primary conversational
provider, the retrieval chain, the secondary LLM and the static fallback. -/
structure Calls where
  gemini : Nat
  rag : Nat
  openai : Nat
  fallback : Nat
deriving DecidableEq, Repr

def ml_terms : List String := ["machine learning", "ml", "artificial intelligence", "ai"]
def nn_terms : List String := ["neural network", "deep learning", "neuron"]
def prog_terms : List String := ["programming", "coding", "python", "algorithm"]
def math_terms : List String := ["math", "calculus", "linear algebra", "statistics"]
def help_terms : List String := ["help", "what", "how", "explain"]

def fallback_ml_text : String :=
  "Machine Learning is a subset of artificial intelligence that enables computers to learn and make decisions from data without being explicitly programmed for every scenario.\n\nKey Types of Machine Learning:\n1. **Supervised Learning**: Learning with labeled data (like classification and regression)\n2. **Unsupervised Learning**: Finding patterns in unlabeled data (like clustering)\n3. **Reinforcement Learning**: Learning through interaction and rewards\n\nCommon applications include image recognition, natural language processing, recommendation systems, and predictive analytics. Would you like to know more about any specific aspect?"

def fallback_nn_text : String :=
  "Neural Networks are computational models inspired by biological neural networks in the brain. They consist of interconnected nodes (neurons) that process and transmit information.\n\nKey Components:\n- **Input Layer**: Receives data\n- **Hidden Layer(s)**: Process information\n- **Output Layer**: Produces results\n- **Weights & Biases**: Parameters that are learned during training\n\nDeep Learning uses neural networks with multiple hidden layers to model complex patterns in data. It\x27s particularly powerful for tasks like image recognition, speech processing, and natural language understanding."

def fallback_prog_text : String :=
  "Programming is the process of creating instructions for computers to execute. Here are some fundamental concepts:\n\n**Programming Basics**:\n- Variables: Store data values\n- Functions: Reusable blocks of code\n- Control Structures: if/else, loops (for, while)\n- Data Structures: Arrays, lists, dictionaries\n\n**Python** is an excellent language for beginners because of its readable syntax and powerful libraries for AI/ML like NumPy, Pandas, and TensorFlow.\n\n**Problem-Solving Approach**:\n1. Understand the problem\n2. Break it into smaller parts\n3. Write pseudocode\n4. Implement and test\n\nWhat specific programming concept would you like to explore?"

def fallback_math_text : String :=
  "Mathematics is fundamental to understanding AI and Machine Learning. Key areas include:\n\n**Linear Algebra**:\n- Vectors and matrices\n- Matrix operations\n- Eigenvalues and eigenvectors\n\n**Calculus**:\n- Derivatives for optimization\n- Chain rule for backpropagation\n- Gradient descent\n\n**Statistics & Probability**:\n- Probability distributions\n- Bayes\x27 theorem\n- Statistical inference\n\n**Optimization**:\n- Finding minimum/maximum values\n- Gradient-based methods\n- Convex vs non-convex problems\n\nThese mathematical concepts help us understand how AI algorithms learn from data and make predictions."

def fallback_help_text : String :=
  "I\x27m here to help you learn about AI, Machine Learning, Programming, and Mathematics! \n\nHere are some topics I can assist with:\n- **AI & Machine Learning**: Concepts, algorithms, applications\n- **Programming**: Python, algorithms, data structures\n- **Mathematics**: Linear algebra, calculus, statistics\n- **Deep Learning**: Neural networks, backpropagation, architectures\n\nFeel free to ask specific questions like:\n- \"What is supervised learning?\"\n- \"How do neural networks work?\"\n- \"Explain gradient descent\"\n- \"Help with Python loops\"\n\nWhat would you like to learn about today?"

def fallback_generic_text : String :=
  "I\x27m experiencing some technical difficulties connecting to my AI model right now, but I\x27m still here to help! \n\nI have knowledge about:\n- **Artificial Intelligence & Machine Learning**\n- **Programming and Computer Science**\n- **Mathematics for AI**\n- **Deep Learning and Neural Networks**\n\nPlease try rephrasing your question or ask about one of these specific topics. You can also try asking again in a few moments when my connection might be restored.\n\nIs there a particular area of AI or programming you\x27d like to explore?"

/-- `RAGPipeline._get_fallback_response`: a pure keyword router over the
query; the final branch is the generic redirect. -/
def get_fallback_response (query : String) : String :=
  if ml_terms.any (fun t => hasSubstr (lowerStr query) t) then fallback_ml_text
  else if nn_terms.any (fun t => hasSubstr (lowerStr query) t) then fallback_nn_text
  else if prog_terms.any (fun t => hasSubstr (lowerStr query) t) then fallback_prog_text
  else if math_terms.any (fun t => hasSubstr (lowerStr query) t) then fallback_math_text
  else if help_terms.any (fun t => hasSubstr (lowerStr query) t) then fallback_help_text
  else fallback_generic_text

def openai_system_prompt : String :=
  "You are an AI tutor designed to help students learn. \n            You should be helpful, encouraging, and educational in your responses. \n            If you don\x27t know something, admit it and suggest ways the student could find the answer."

/-- `RAGPipeline._direct_llm_query`: Gemini (without history) first, then the
OpenAI model, then the static fallback; every exception is caught. -/
def direct_llm_query (p : Providers) (query : String) : String × Calls :=
  if usable (gemini_chat p query []) then (gemini_chat p query [], ⟨1, 0, 0, 0⟩)
  else
    match p.llm_invoke [("system", openai_system_prompt), ("user", query)] with
    | .ok content => (content, ⟨1, 0, 1, 0⟩)
    | .error _ => (get_fallback_response query, ⟨1, 0, 1, 1⟩)

/-- `RAGPipeline.query`: the retrieval chain when the vector store is up,
`_direct_llm_query` when it is missing or the chain raises. -/
def rag_query (p : Providers) (query : String) : String × Calls :=
  if !p.vectorstore_ready then direct_llm_query p query
  else
    match p.qa_chain query with
    | .ok answer => (answer, ⟨0, 1, 0, 0⟩)
    | .error _ =>
      ((direct_llm_query p query).1,
       { (direct_llm_query p query).2 with rag := (direct_llm_query p query).2.rag + 1 })

/-- `RAGPipeline._build_conversation_context`: the last 5 exchanges. -/
def build_conversation_context (conversation_history : List Exchange) : String :=
  if conversation_history.isEmpty then ""
  else String.intercalate "\n" ("Previous conversation:" ::
    (keepLast 5 conversation_history).flatMap (fun m => ["User: " ++ m.user, "AI: " ++ m.ai]))

/-- The `f"\x7bcontext\x7d\n\nCurrent question: \x7bquery\x7d"` string
`RAGPipeline.chat` hands to the RAG tier. -/
def chat_full_query (query : String) (conversation_history : List Exchange) : String :=
  build_conversation_context conversation_history ++ "\n\nCurrent question: " ++ query

/-- `RAGPipeline.chat`: the cascade entry point, with invocation counts. -/
def rag_chat (p : Providers) (query : String) (conversation_history : List Exchange) :
    String × Calls :=
  if usable (gemini_chat p query conversation_history) then
    (gemini_chat p query conversation_history, ⟨1, 0, 0, 0⟩)
  else
    ((rag_query p (chat_full_query query conversation_history)).1,
     { (rag_query p (chat_full_query query conversation_history)).2 with
         gemini := (rag_query p (chat_full_query query conversation_history)).2.gemini + 1 })

/-! ### Cascade lemmas -/

/-- `GeminiAI.chat` never returns the empty string: each of its four exits
is a fixed nonempty message or text that passed a nonemptiness check. -/
theorem gemini_chat_ne_empty (p : Providers) (message : String)
    (conversation_history : List Exchange) :
    gemini_chat p message conversation_history ≠ "" := by
  unfold gemini_chat
  split
  · decide
  · split
    · intro h
      have h₂ := congrArg String.length h
      rw [String.length_append, show String.length "" = 0 from rfl] at h₂
      have hpos : 0 < tech_difficulties_head.length := by decide
      omega
    · split
      · decide
      · assumption

/-- The static fallback always returns one of six fixed nonempty texts. -/
theorem get_fallback_response_ne_empty (query : String) :
    get_fallback_response query ≠ "" := by
  unfold get_fallback_response
  split_ifs <;> decide

theorem usable_ne_empty {r : String} (h : usable r = true) : r ≠ "" := by
  unfold usable at h
  intro he
  rw [he] at h
  simp at h

/-- `_direct_llm_query` never returns empty text unless the OpenAI model
itself returned empty text. -/
theorem direct_llm_query_ne_empty (p : Providers) (query : String)
    (hllm : ∀ m, p.llm_invoke m ≠ .ok "") :
    (direct_llm_query p query).1 ≠ "" := by
  unfold direct_llm_query
  split
  · exact gemini_chat_ne_empty p query []
  · split
    · next content heq =>
        intro hc
        have hc₂ : content = "" := hc
        rw [hc₂] at heq
        exact hllm _ heq
    · exact get_fallback_response_ne_empty query

/-- `RAGPipeline.query` never returns empty text unless the retrieval chain
or the OpenAI model returned empty text. -/
theorem rag_query_ne_empty (p : Providers) (query : String)
    (hrag : ∀ s, p.qa_chain s ≠ .ok "")
    (hllm : ∀ m, p.llm_invoke m ≠ .ok "") :
    (rag_query p query).1 ≠ "" := by
  unfold rag_query
  split
  · exact direct_llm_query_ne_empty p query hllm
  · split
    · next answer heq =>
        intro hc
        have hc₂ : answer = "" := hc
        rw [hc₂] at heq
        exact hrag _ heq
    · exact direct_llm_query_ne_empty p query hllm

/-! ### Cascade claims -/

/-- C1 (amended): the cascade entry point is total — modelled exceptions
from every provider are consumed inside it — and returns non-empty text
whenever the retrieval chain and the secondary LLM never themselves return
empty text; with every provider failing, the answer is the non-empty static
fallback.  (The unamended claim fails: a provider returning `""` is passed
through, see the counterexample.) -/
theorem claim_C1_chat_total_nonempty (p : Providers) (query : String)
    (conversation_history : List Exchange)
    (hrag : ∀ s, p.qa_chain s ≠ .ok "")
    (hllm : ∀ m, p.llm_invoke m ≠ .ok "") :
    (rag_chat p query conversation_history).1 ≠ "" := by
  unfold rag_chat
  split
  · exact gemini_chat_ne_empty p query conversation_history
  · exact rag_query_ne_empty p (chat_full_query query conversation_history) hrag hllm

/-- Providers that always raise, for the C1 witness. -/
def c1AllFail : Providers :=
  ⟨true, fun _ => .error "quota", true, fun _ => .error "chain down",
   fun _ => .error "auth"⟩

/-- C1 witness: with every provider raising, the cascade still answers with
non-empty text. -/
theorem claim_C1_chat_total_nonempty_witness :
    (rag_chat c1AllFail "hi" []).1 ≠ "" :=
  claim_C1_chat_total_nonempty c1AllFail "hi" []
    (fun _ h => by simp [c1AllFail] at h) (fun _ h => by simp [c1AllFail] at h)

/-- Providers where Gemini raises and the retrieval chain returns empty
text, for the C1 counterexample. -/
def c1EmptyRag : Providers :=
  ⟨true, fun _ => .error "boom", true, fun _ => .ok "", fun _ => .error "down"⟩

/-- C1 counterexample: if the retrieval chain returns empty text, the
cascade returns an empty final answer, so the claim that `chat` always
returns non-empty text for every provider behaviour is false. -/
theorem claim_C1_counterexample : (rag_chat c1EmptyRag "hi" []).1 = "" := by decide

/-- C6 (amended): only empty text or text containing the one sentinel phrase
"experiencing some technical difficulties" (case-insensitively) is treated
as failure; whenever the primary provider's text fails that usability guard
the cascade moves to the retrieval tier.  (The unamended claim fails: the
not-configured message is returned as the final answer, see the
counterexample.) -/
theorem claim_C6_sentinel_cascades (p : Providers) (query : String)
    (conversation_history : List Exchange)
    (h : usable (gemini_chat p query conversation_history) = false) :
    rag_chat p query conversation_history
      = ((rag_query p (chat_full_query query conversation_history)).1,
         { (rag_query p (chat_full_query query conversation_history)).2 with
             gemini := (rag_query p (chat_full_query query conversation_history)).2.gemini
               + 1 }) := by
  unfold rag_chat
  rw [h]
  simp

/-- Providers whose Gemini raises, whose vector store is down and whose
OpenAI model answers, for the C6 witness. -/
def c6Cascade : Providers :=
  ⟨true, fun _ => .error "x", false, fun _ => .error "nochain", fun _ => .ok "oai answer"⟩

/-- C6 witness: Gemini's technical-difficulties sentinel is treated as a
failure and the cascade produces the next tier's answer. -/
theorem claim_C6_sentinel_cascades_witness :
    rag_chat c6Cascade "q" [] = ("oai answer", ⟨2, 0, 1, 0⟩) := by
  rw [claim_C6_sentinel_cascades c6Cascade "q" [] (by decide)]
  decide

/-- Providers with no Gemini API key, for the C6 counterexample. -/
def c6NotConfigured : Providers :=
  ⟨false, fun _ => .error "x", true, fun _ => .ok "real answer", fun _ => .ok "oai"⟩

/-- C6 counterexample: the not-configured message — an apology the claim
says must be treated as a degraded sentinel — is returned as the final
answer and no further tier is invoked. -/
theorem claim_C6_counterexample :
    (rag_chat c6NotConfigured "hi" []).1 = not_configured_msg ∧
    (rag_chat c6NotConfigured "hi" []).2 = ⟨1, 0, 0, 0⟩ := by decide

/-- C7 (amended): within one cascade call the retrieval chain, the secondary
LLM and the static fallback are each invoked at most once, and the primary
conversational provider at most twice — it is invoked a second time inside
`_direct_llm_query` after failing at the top of `chat`, so the original
at-most-once claim fails for it (see the counterexample). -/
theorem claim_C7_invocation_bounds (p : Providers) (query : String)
    (conversation_history : List Exchange) :
    (rag_chat p query conversation_history).2.rag ≤ 1 ∧
    (rag_chat p query conversation_history).2.openai ≤ 1 ∧
    (rag_chat p query conversation_history).2.fallback ≤ 1 ∧
    (rag_chat p query conversation_history).2.gemini ≤ 2 := by
  unfold rag_chat rag_query direct_llm_query
  split
  · refine ⟨?_, ?_, ?_, ?_⟩ <;> (dsimp only; omega)
  · split
    · split
      · refine ⟨?_, ?_, ?_, ?_⟩ <;> (dsimp only; omega)
      · split <;> (refine ⟨?_, ?_, ?_, ?_⟩ <;> (dsimp only; omega))
    · split
      · refine ⟨?_, ?_, ?_, ?_⟩ <;> (dsimp only; omega)
      · split
        · refine ⟨?_, ?_, ?_, ?_⟩ <;> (dsimp only; omega)
        · split <;> (refine ⟨?_, ?_, ?_, ?_⟩ <;> (dsimp only; omega))

/-- Providers where everything fails, for the C7 counterexample. -/
def c7AllFail : Providers :=
  ⟨true, fun _ => .error "x", false, fun _ => .error "c", fun _ => .error "o"⟩

/-- C7 counterexample: with all providers failing, the primary provider is
invoked twice within the single cascade call, refuting at-most-once. -/
theorem claim_C7_counterexample : (rag_chat c7AllFail "hello" []).2.gemini = 2 := by decide

/-! ### Classifier claims -/

/-- C2: the classifier is total and always lands in the closed label set. -/
theorem claim_C2_closed_label_set (ai_response user_query : String) :
    classify_emotion ai_response user_query
      ∈ ["happy", "thinking", "explaining", "encouraging", "questioning"] := by
  simp only [classify_emotion]
  split
  · cases bestEmotion (scoreOf (final_scores ai_response user_query)) <;> decide
  · decide

/-- Patterns whose every match needs at least one non-whitespace character. -/
def Regex.needsNonWs : Regex → Bool
  | .fail => true
  | .lit l => l.any (fun c => !isPyWs c)
  | .ws => false
  | .alt r₁ r₂ => r₁.needsNonWs && r₂.needsNonWs
  | .seq r₁ r₂ => r₁.needsNonWs || r₂.needsNonWs

/-- A pattern needing a non-whitespace character matches nowhere at the head
of pure whitespace. -/
theorem matchLens_eq_nil_of_ws (r : Regex) (hr : r.needsNonWs = true) :
    ∀ s : List Char, (∀ c ∈ s, isPyWs c = true) → r.matchLens s = [] := by
  induction r with
  | fail => intro s hs; rfl
  | lit l =>
    intro s hs
    unfold Regex.matchLens
    rw [if_neg]
    intro hp
    rw [List.isPrefixOf_iff_prefix] at hp
    unfold Regex.needsNonWs at hr
    rw [List.any_eq_true] at hr
    obtain ⟨c, hc, hnc⟩ := hr
    have := hs c (hp.subset hc)
    simp [this] at hnc
  | ws =>
    exact absurd hr (by simp [Regex.needsNonWs])
  | alt r₁ r₂ ih₁ ih₂ =>
    intro s hs
    unfold Regex.needsNonWs at hr
    rw [Bool.and_eq_true] at hr
    unfold Regex.matchLens
    rw [ih₁ hr.1 s hs, ih₂ hr.2 s hs]
    rfl
  | seq r₁ r₂ ih₁ ih₂ =>
    intro s hs
    unfold Regex.needsNonWs at hr
    rw [Bool.or_eq_true] at hr
    unfold Regex.matchLens
    rcases hr with h₁ | h₂
    · rw [ih₁ h₁ s hs]
      rfl
    · apply List.flatMap_eq_nil_iff.mpr
      intro n _
      rw [ih₂ h₂ (s.drop n) (fun c hc => hs c (List.drop_subset n s hc))]
      rfl

/-- The findall scan over pure whitespace finds nothing for such a pattern. -/
theorem scanCountAux_eq_zero (r : Regex) (hr : r.needsNonWs = true) :
    ∀ (fuel : Nat) (s : List Char), (∀ c ∈ s, isPyWs c = true) →
      scanCountAux r fuel s = 0 := by
  intro fuel
  induction fuel with
  | zero => intro s _; rfl
  | succ n ih =>
    intro s hs
    cases s with
    | nil => rfl
    | cons c rest =>
      unfold scanCountAux firstMatchLen
      rw [matchLens_eq_nil_of_ws r hr _ hs]
      exact ih rest (fun c' hc' => hs c' (List.mem_cons_of_mem c hc'))

theorem strCount_eq_zero (s sub : String)
    (hsub : sub.data.any (fun c => !isPyWs c) = true)
    (hs : ∀ c ∈ s.data, isPyWs c = true) : strCount s sub = 0 :=
  scanCountAux_eq_zero (.lit sub.data) hsub s.data.length s.data hs

theorem hasSubstr_eq_false_of_ws (s sub : String)
    (hsub : sub.data.any (fun c => !isPyWs c) = true)
    (hs : ∀ c ∈ s.data, isPyWs c = true) : hasSubstr s sub = false := by
  unfold hasSubstr
  rw [strCount_eq_zero s sub hsub hs]
  rfl

theorem reFindallCount_eq_zero (r : Regex) (s : String) (hr : r.needsNonWs = true)
    (hs : ∀ c ∈ s.data, isPyWs c = true) : reFindallCount r s = 0 :=
  scanCountAux_eq_zero r hr s.data.length s.data hs

theorem isPyWs_toLower (c : Char) (h : isPyWs c = true) : isPyWs c.toLower = true := by
  simp only [isPyWs, Bool.or_eq_true, decide_eq_true_eq] at h
  rcases h with ((((h | h) | h) | h) | h) | h <;> subst h <;> decide

theorem lowerStr_ws (s : String) (hs : ∀ c ∈ s.data, isPyWs c = true) :
    ∀ c ∈ (lowerStr s).data, isPyWs c = true := by
  intro c hc
  unfold lowerStr at hc
  rw [show (String.mk (s.data.map Char.toLower)).data = s.data.map Char.toLower from rfl,
      List.mem_map] at hc
  obtain ⟨c', hc', rfl⟩ := hc
  exact isPyWs_toLower c' (hs c' hc')

theorem base_score_eq_zero (e : Emotion) (r : String)
    (hs : ∀ c ∈ r.data, isPyWs c = true) : base_score r e = 0 := by
  have hl := lowerStr_ws r hs
  have hkw : ∀ k ∈ emotion_keywords e, (lowerStr k).data.any (fun c => !isPyWs c) = true := by
    cases e <;> decide
  have hpat : ∀ p ∈ emotion_regexes e, p.needsNonWs = true := by
    cases e <;> decide
  have h₁ : ((emotion_keywords e).map (fun k => strCount (lowerStr r) (lowerStr k))).sum = 0 := by
    apply List.sum_eq_zero
    intro x hx
    rw [List.mem_map] at hx
    obtain ⟨k, hk, rfl⟩ := hx
    exact strCount_eq_zero _ _ (hkw k hk) hl
  have h₂ : ((emotion_regexes e).map (fun p => reFindallCount p (lowerStr r))).sum = 0 := by
    apply List.sum_eq_zero
    intro x hx
    rw [List.mem_map] at hx
    obtain ⟨p, hp, rfl⟩ := hx
    exact reFindallCount_eq_zero _ _ (hpat p hp) hl
  simp only [base_score]
  rw [h₁, h₂]

theorem stripLen_eq_zero (s : String) (hs : ∀ c ∈ s.data, isPyWs c = true) :
    stripLen s = 0 := by
  have h₁ : s.data.dropWhile isPyWs = [] :=
    List.dropWhile_eq_nil_iff.mpr (fun x hx => hs x hx)
  unfold stripLen stripList
  rw [h₁]
  rfl

/-- The encouraging-phrase loop is the identity when no phrase occurs. -/
theorem foldl_encouraging_id (rl : String) (phs : List String)
    (h : ∀ ph ∈ phs, hasSubstr rl ph = false) :
    ∀ s : EmotionScores,
      phs.foldl (fun s ph => if hasSubstr rl ph then
        { s with encouraging := s.encouraging + 3 } else s) s = s := by
  induction phs with
  | nil => intro s; rfl
  | cons a l ih =>
    intro s
    simp only [List.foldl_cons, h a (List.mem_cons_self a l), Bool.false_eq_true, if_false]
    exact ih (fun ph hp => h ph (List.mem_cons_of_mem a hp)) s

/-- C9 (amended): an empty or pure-whitespace response is classified as
`thinking`, not the default `explaining`, whenever the query carries no
error- or struggle-indicator (in particular for an empty query): the
short-response rule gives `thinking` a positive score, so the zero-signal
default branch is never reached.  (The unamended claim fails, see the
counterexample.) -/
theorem claim_C9_whitespace_thinking (ai_response user_query : String)
    (hws : ∀ c ∈ ai_response.data, isPyWs c = true)
    (hq : ∀ w ∈ error_indicators ++ struggle_indicators,
      hasSubstr (lowerStr user_query) w = false) :
    classify_emotion ai_response user_query = "thinking" := by
  have hl := lowerStr_ws ai_response hws
  have hb : base_scores ai_response = ⟨0, 0, 0, 0, 0⟩ := by
    unfold base_scores
    rw [base_score_eq_zero .happy _ hws, base_score_eq_zero .thinking _ hws,
        base_score_eq_zero .explaining _ hws, base_score_eq_zero .encouraging _ hws,
        base_score_eq_zero .questioning _ hws]
  have hstrip : stripLen ai_response = 0 := stripLen_eq_zero _ hws
  have hfc : formula_chars.any (fun c => ai_response.data.contains c) = false := by
    rw [List.any_eq_false]
    intro c hc hcon
    have hwsc := hws c (List.mem_of_elem_eq_true hcon)
    fin_cases hc <;> exact absurd hwsc (by decide)
  have herr : error_indicators.any (fun w => hasSubstr (lowerStr user_query) w) = false := by
    rw [List.any_eq_false]
    intro w hw hcon
    rw [hq w (List.mem_append_left _ hw)] at hcon
    exact Bool.false_ne_true hcon
  have hstrug : struggle_indicators.any (fun w => hasSubstr (lowerStr user_query) w)
      = false := by
    rw [List.any_eq_false]
    intro w hw hcon
    rw [hq w (List.mem_append_right _ hw)] at hcon
    exact Bool.false_ne_true hcon
  have hpraise : praise_words.filter (fun w => hasSubstr (lowerStr ai_response) w) = [] := by
    apply List.filter_eq_nil_iff.mpr
    intro w hw hcon
    have : hasSubstr (lowerStr ai_response) w = false := by
      apply hasSubstr_eq_false_of_ws _ _ ?_ hl
      fin_cases hw <;> decide
    rw [this] at hcon
    exact Bool.false_ne_true hcon
  have hq6 : strCount ai_response "?" = 0 := strCount_eq_zero _ _ (by decide) hws
  have hphr : ∀ ph ∈ encouraging_phrases, hasSubstr (lowerStr ai_response) ph = false := by
    intro ph hp
    apply hasSubstr_eq_false_of_ws _ _ ?_ hl
    fin_cases hp <;> decide
  have hfs : final_scores ai_response user_query = ⟨0, 2, 0, 0, 0⟩ := by
    unfold final_scores
    rw [hb]
    simp only [apply_contextual_rules, hstrip, hfc, herr, hstrug, hpraise, hq6,
      foldl_encouraging_id (lowerStr ai_response) encouraging_phrases hphr]
    norm_num
  simp only [classify_emotion]
  rw [hfs]
  decide

/-- C9 witness: a concrete whitespace-only response with an indicator-free
query is classified `thinking`. -/
theorem claim_C9_whitespace_thinking_witness :
    (∀ c ∈ ("  " : String).data, isPyWs c = true) ∧
    classify_emotion "  " "hi" = "thinking" :=
  ⟨by decide,
   claim_C9_whitespace_thinking "  " "hi" (by decide) (by decide)⟩

/-- C9 counterexample: on the empty response (and empty query) the
classifier returns `thinking`, not `explaining` as the claim states. -/
theorem claim_C9_counterexample : ¬ classify_emotion "" "" = "explaining" := by decide

/-- `pickMax` keeps the incumbent when nothing later strictly beats it. -/
theorem pickMax_of_le (f : Emotion → Nat) (es : List Emotion) (best : Emotion)
    (h : ∀ e ∈ es, f e ≤ f best) : pickMax f es best = best := by
  induction es generalizing best with
  | nil => rfl
  | cons a l ih =>
    unfold pickMax
    rw [if_neg (Nat.not_lt.mpr (h a (List.mem_cons_self a l)))]
    exact ih best (fun e he => h e (List.mem_cons_of_mem a he))

theorem scoreOf_le_maxScoreVal (sc : EmotionScores) (e : Emotion) :
    scoreOf sc e ≤ maxScoreVal sc := by
  cases e <;> unfold scoreOf maxScoreVal
  · exact Nat.le_max_left _ _
  · exact (Nat.le_max_left _ _).trans (Nat.le_max_right _ _)
  · exact ((Nat.le_max_left _ _).trans (Nat.le_max_right _ _)).trans (Nat.le_max_right _ _)
  · exact (((Nat.le_max_left _ _).trans (Nat.le_max_right _ _)).trans
      (Nat.le_max_right _ _)).trans (Nat.le_max_right _ _)
  · exact (((Nat.le_max_right _ _).trans (Nat.le_max_right _ _)).trans
      (Nat.le_max_right _ _)).trans (Nat.le_max_right _ _)

/-- C8 (amended): when several labels share a positive maximum total score,
the classifier returns the one earliest in the declaration order happy,
thinking, explaining, encouraging, questioning — the order-minimal maximizer
always wins.  (When the shared maximum is 0 the fixed default `explaining`
is returned instead of the order-first label, so the unamended claim fails
there, see the counterexample.) -/
theorem claim_C8_tie_break_declaration_order (ai_response user_query : String) (e : Emotion)
    (hmax : ∀ e₂, scoreOf (final_scores ai_response user_query) e₂
      ≤ scoreOf (final_scores ai_response user_query) e)
    (hidx : ∀ e₂, scoreOf (final_scores ai_response user_query) e₂
      = scoreOf (final_scores ai_response user_query) e → orderIdx e ≤ orderIdx e₂)
    (hpos : 0 < scoreOf (final_scores ai_response user_query) e) :
    classify_emotion ai_response user_query = emotionName e := by
  have hstrict : ∀ e₂, orderIdx e₂ < orderIdx e →
      scoreOf (final_scores ai_response user_query) e₂
        < scoreOf (final_scores ai_response user_query) e :=
    fun e₂ hlt => Nat.lt_of_le_of_ne (hmax e₂)
      (fun heq => absurd (hidx e₂ heq) (Nat.not_le.mpr hlt))
  have hcond : maxScoreVal (final_scores ai_response user_query) > 0 :=
    Nat.lt_of_lt_of_le hpos (scoreOf_le_maxScoreVal _ e)
  simp only [classify_emotion]
  rw [if_pos hcond]
  congr 1
  have m₀ := hmax .happy
  have m₁ := hmax .thinking
  have m₂ := hmax .explaining
  have m₃ := hmax .encouraging
  have m₄ := hmax .questioning
  cases e with
  | happy =>
    simp only [bestEmotion, pickMax]
    rw [if_neg (Nat.not_lt.mpr m₁), if_neg (Nat.not_lt.mpr m₂),
        if_neg (Nat.not_lt.mpr m₃), if_neg (Nat.not_lt.mpr m₄)]
  | thinking =>
    have s₀ := hstrict .happy (by decide)
    simp only [bestEmotion, pickMax]
    rw [if_pos s₀, if_neg (Nat.not_lt.mpr m₂), if_neg (Nat.not_lt.mpr m₃),
        if_neg (Nat.not_lt.mpr m₄)]
  | explaining =>
    have s₀ := hstrict .happy (by decide)
    have s₁ := hstrict .thinking (by decide)
    simp only [bestEmotion, pickMax]
    by_cases h₀₁ : scoreOf (final_scores ai_response user_query) .happy
        < scoreOf (final_scores ai_response user_query) .thinking
    · rw [if_pos h₀₁, if_pos s₁, if_neg (Nat.not_lt.mpr m₃), if_neg (Nat.not_lt.mpr m₄)]
    · rw [if_neg h₀₁, if_pos s₀, if_neg (Nat.not_lt.mpr m₃), if_neg (Nat.not_lt.mpr m₄)]
  | encouraging =>
    have s₀ := hstrict .happy (by decide)
    have s₁ := hstrict .thinking (by decide)
    have s₂ := hstrict .explaining (by decide)
    simp only [bestEmotion, pickMax]
    by_cases h₀₁ : scoreOf (final_scores ai_response user_query) .happy
        < scoreOf (final_scores ai_response user_query) .thinking
    · rw [if_pos h₀₁]
      by_cases h₁₂ : scoreOf (final_scores ai_response user_query) .thinking
          < scoreOf (final_scores ai_response user_query) .explaining
      · rw [if_pos h₁₂, if_pos s₂, if_neg (Nat.not_lt.mpr m₄)]
      · rw [if_neg h₁₂, if_pos s₁, if_neg (Nat.not_lt.mpr m₄)]
    · rw [if_neg h₀₁]
      by_cases h₀₂ : scoreOf (final_scores ai_response user_query) .happy
          < scoreOf (final_scores ai_response user_query) .explaining
      · rw [if_pos h₀₂, if_pos s₂, if_neg (Nat.not_lt.mpr m₄)]
      · rw [if_neg h₀₂, if_pos s₀, if_neg (Nat.not_lt.mpr m₄)]
  | questioning =>
    have s₀ := hstrict .happy (by decide)
    have s₁ := hstrict .thinking (by decide)
    have s₂ := hstrict .explaining (by decide)
    have s₃ := hstrict .encouraging (by decide)
    simp only [bestEmotion, pickMax]
    by_cases h₀₁ : scoreOf (final_scores ai_response user_query) .happy
        < scoreOf (final_scores ai_response user_query) .thinking
    · rw [if_pos h₀₁]
      by_cases h₁₂ : scoreOf (final_scores ai_response user_query) .thinking
          < scoreOf (final_scores ai_response user_query) .explaining
      · rw [if_pos h₁₂]
        by_cases h₂₃ : scoreOf (final_scores ai_response user_query) .explaining
            < scoreOf (final_scores ai_response user_query) .encouraging
        · rw [if_pos h₂₃, if_pos s₃]
        · rw [if_neg h₂₃, if_pos s₂]
      · rw [if_neg h₁₂]
        by_cases h₁₃ : scoreOf (final_scores ai_response user_query) .thinking
            < scoreOf (final_scores ai_response user_query) .encouraging
        · rw [if_pos h₁₃, if_pos s₃]
        · rw [if_neg h₁₃, if_pos s₁]
    · rw [if_neg h₀₁]
      by_cases h₀₂ : scoreOf (final_scores ai_response user_query) .happy
          < scoreOf (final_scores ai_response user_query) .explaining
      · rw [if_pos h₀₂]
        by_cases h₂₃ : scoreOf (final_scores ai_response user_query) .explaining
            < scoreOf (final_scores ai_response user_query) .encouraging
        · rw [if_pos h₂₃, if_pos s₃]
        · rw [if_neg h₂₃, if_pos s₂]
      · rw [if_neg h₀₂]
        by_cases h₀₃ : scoreOf (final_scores ai_response user_query) .happy
            < scoreOf (final_scores ai_response user_query) .encouraging
        · rw [if_pos h₀₃, if_pos s₃]
        · rw [if_neg h₀₃, if_pos s₀]

/-- C8 counterexample: on a signal-free response every label shares the
maximum total score 0, yet the classifier returns the default `explaining`
rather than the declaration-order-first label `happy`. -/
theorem claim_C8_counterexample :
    final_scores "zzzzz zzzzz zzzzz zzzzz z" "" = ⟨0, 0, 0, 0, 0⟩ ∧
    classify_emotion "zzzzz zzzzz zzzzz zzzzz z" "" = "explaining" :=
  ⟨by decide, by decide⟩

/-- C8 witness: on response `""` with query `"wrong"`, `thinking` and
`encouraging` tie at the maximum score 2 and the earlier label `thinking`
is returned. -/
theorem claim_C8_tie_break_declaration_order_witness :
    scoreOf (final_scores "" "wrong") .thinking = 2 ∧
    scoreOf (final_scores "" "wrong") .encouraging = 2 ∧
    classify_emotion "" "wrong" = "thinking" :=
  ⟨by decide, by decide,
   claim_C8_tie_break_declaration_order "" "wrong" .thinking
     (by intro e₂; cases e₂ <;> decide)
     (by intro e₂ heq; cases e₂ <;> first | decide | exact absurd heq (by decide))
     (by decide)⟩

/-- The encouraging-phrase loop never changes the happy score. -/
theorem foldl_encouraging_happy (rl : String) (phs : List String) :
    ∀ s : EmotionScores,
      (phs.foldl (fun s ph => if hasSubstr rl ph then
        { s with encouraging := s.encouraging + 3 } else s) s).happy = s.happy := by
  induction phs with
  | nil => intro s; rfl
  | cons a l ih =>
    intro s
    simp only [List.foldl_cons]
    rw [ih]
    split <;> rfl

/-- Rule 5: two distinct praise words guarantee the +4 happy bonus, so the
final happy score is at least 4. -/
theorem final_happy_ge_four (ai_response user_query : String)
    (hp : 2 ≤ (praise_words.filter (fun w => hasSubstr (lowerStr ai_response) w)).length) :
    4 ≤ (final_scores ai_response user_query).happy := by
  simp only [final_scores, apply_contextual_rules]
  rw [foldl_encouraging_happy]
  split_ifs <;> (dsimp only) <;> omega

/-- C10 (amended): a response containing at least two distinct praise words
always receives the +4 happy bonus, and is classified `happy` whenever no
other label outscores happy — in particular on the claim's own example
"Excellent! That's correct, exactly right.".  (Unrestricted, the claim
fails: a stronger competing signal such as repeated question marks wins,
see the counterexample.) -/
theorem claim_C10_praise_happy (ai_response user_query : String)
    (hp : 2 ≤ (praise_words.filter (fun w => hasSubstr (lowerStr ai_response) w)).length)
    (hmax : ∀ e, scoreOf (final_scores ai_response user_query) e
      ≤ scoreOf (final_scores ai_response user_query) .happy) :
    classify_emotion ai_response user_query = "happy" := by
  have h₄ := final_happy_ge_four ai_response user_query hp
  have hpos : 0 < scoreOf (final_scores ai_response user_query) .happy := by
    show 0 < (final_scores ai_response user_query).happy
    omega
  have hcond : maxScoreVal (final_scores ai_response user_query) > 0 :=
    Nat.lt_of_lt_of_le hpos (scoreOf_le_maxScoreVal _ .happy)
  simp only [classify_emotion]
  rw [if_pos hcond]
  have hbest : bestEmotion (scoreOf (final_scores ai_response user_query)) = .happy := by
    unfold bestEmotion
    exact pickMax_of_le _ _ _ (by intro x hx; exact hmax x)
  rw [hbest]
  rfl

/-- C10 witness: the claim's example response carries four distinct praise
words, dominates every other label, and is classified `happy`. -/
theorem claim_C10_praise_happy_witness :
    2 ≤ (praise_words.filter
      (fun w => hasSubstr (lowerStr "Excellent! That\x27s correct, exactly right.") w)).length ∧
    classify_emotion "Excellent! That\x27s correct, exactly right." "" = "happy" :=
  ⟨by decide,
   claim_C10_praise_happy "Excellent! That\x27s correct, exactly right." "" (by decide)
     (by intro e; cases e <;> decide)⟩

/-- C10 counterexample: "good right ? ? ? ?" contains two distinct praise
words yet is classified `questioning`, because the question-mark bonus
outscores the praise bonus — the unamended claim is false. -/
theorem claim_C10_counterexample :
    2 ≤ (praise_words.filter (fun w => hasSubstr (lowerStr "good right ? ? ? ?") w)).length ∧
    ¬ classify_emotion "good right ? ? ? ?" "" = "happy" :=
  ⟨by decide, by decide⟩
